import Mathlib

/-!
Verification development for the Paycrypt margin-price API.

The repository contains several iterations of the same Express service.
The claims target two of them:
  - the background-fetch iteration (src/unnamed/part_000, first service):
    scheduler state machine `backgroundFetchPrices`, provider cascade,
    margin application, SQLite persistence, and the cache-only read path;
  - the long-cache iteration (src/server.js): a read path that may fetch
    from CoinGecko synchronously inside a request.

JavaScript values are embedded as follows: a nullable numeric price is
an `Option ℚ` (JS `null`/missing is `none`); JS truthiness on such a
value (`prices.ngn ? … : …`, `prices.usd || null`) is falsy exactly when
the value is `null` or `0`, modelled by `truthy`; times (`Date.now()`)
are `ℤ` milliseconds; JS objects keyed by token id are association lists
with object-spread merge (`right operand wins`) modelled by `mergeMaps`.
-/

namespace Paycrypt

/-- Normalized per-token price pair, the value shape of the
`{tokenId: {usd, ngn}}` mappings used throughout the source. -/
structure Prices where
  usd : Option ℚ
  ngn : Option ℚ
deriving DecidableEq, Repr

/-- A JS object mapping token ids to prices, as an association list. -/
abbrev PriceMap := List (String × Prices)

/-- JS truthiness of a nullable number: `null` and `0` are falsy. -/
def truthy : Option ℚ → Bool
  | none => false
  | some q => q != 0

/-- The JS expression `v || null`: keeps a truthy value, else `null`. -/
def jsOr (v : Option ℚ) : Option ℚ := if truthy v then v else none

/-- First-match lookup in an association list (JS property access). -/
def lookup (m : PriceMap) (k : String) : Option Prices :=
  (m.find? (fun kv => kv.1 == k)).map (fun kv => kv.2)

/-- JS property assignment `obj[k] = v`: replace an existing key in
place, otherwise append. -/
def setKey (m : PriceMap) (k : String) (v : Prices) : PriceMap :=
  if m.any (fun kv => kv.1 == k) then
    m.map (fun kv => if kv.1 == k then (k, v) else kv)
  else
    m ++ [(k, v)]

/-- JS object spread `{...a, ...b}`: entries of `b` override `a`. -/
def mergeMaps (a b : PriceMap) : PriceMap :=
  b.foldl (fun m kv => setKey m kv.1 kv.2) a

/-- The operator margin added to NGN prices, `const MARGIN_NGN = 20`. -/
def MARGIN_NGN : ℚ := 20

/-- Margin application to one entry, from the fetch success path:
`modifiedData[tokenId] = { ...prices, ngn: prices.ngn ? prices.ngn + MARGIN_NGN : prices.ngn }`.
Note the JS conditional is on truthiness, so an `ngn` of `0` is left
unchanged, like `null`. -/
def applyMarginEntry (p : Prices) : Prices :=
  { p with ngn := if truthy p.ngn then p.ngn.map (fun q => q + MARGIN_NGN) else p.ngn }

/-- Margin application over the whole normalized mapping. -/
def applyMargin (data : PriceMap) : PriceMap :=
  data.map (fun kv => (kv.1, applyMarginEntry kv.2))

/-- A row of the `price_cache` SQLite table. -/
structure DbRow where
  usd_price : Option ℚ
  ngn_price : Option ℚ
  original_ngn : Option ℚ
  last_updated : ℤ
  source : String
deriving DecidableEq, Repr

end Paycrypt

namespace Paycrypt.BackgroundFetch

/-!
The background-fetch iteration (src/unnamed/part_000, first service).
-/

open Paycrypt

/-- Minimum 2 seconds between upstream requests (milliseconds). -/
def MIN_REQUEST_INTERVAL : ℤ := 2 * 1000

/-- Maximum retries per non-rate-limit failure episode. -/
def MAX_RETRIES : ℕ := 3

/-- The process-wide mutable module variables of the service. -/
structure CacheState where
  memoryCache : PriceMap
  lastSuccessfulFetch : ℤ
  isFetching : Bool
  fetchAttempts : ℕ
  consecutiveFailures : ℕ
  rateLimitedUntil : ℤ
  lastRequestTime : ℤ
deriving DecidableEq, Repr

/-- Outcome of one upstream provider attempt: a successful normalized
mapping, an HTTP 429 rate-limit error, or any other failure (network
error, timeout, malformed response). -/
inductive ProviderOutcome where
  | ok (data : PriceMap)
  | rl429
  | errOther
deriving DecidableEq, Repr

/-- Whether a provider attempt succeeded. -/
def ProviderOutcome.isOk : ProviderOutcome → Bool
  | .ok _ => true
  | _ => false

/-- Result of the three-provider cascade inside the try block of
`backgroundFetchPrices`: either some provider produced data (tagged with
its name), or the original CoinGecko error is rethrown (tagged with
whether it was the 429). -/
inductive CascadeOutcome where
  | fetched (src : String) (data : PriceMap)
  | failed (primary429 : Bool)
deriving DecidableEq, Repr

/-- The provider cascade of `backgroundFetchPrices` (lines 527 to 590):
CoinGecko first; on a CoinGecko failure that is exactly an HTTP 429 and
with an Alchemy key configured, try Alchemy; if Alchemy fails for any
reason and a CoinMarketCap key is configured, try CoinMarketCap; every
propagated error is the original CoinGecko error. Returns the outcome
together with whether Alchemy and CoinMarketCap were attempted. -/
def fetchCascade (hasAlchemyKey hasCmcKey : Bool)
    (cg al cmc : ProviderOutcome) : CascadeOutcome × Bool × Bool :=
  match cg with
  | .ok data => (.fetched "coingecko" data, false, false)
  | cgErr =>
    let is429 := cgErr == .rl429
    if is429 && hasAlchemyKey then
      match al with
      | .ok data => (.fetched "alchemy" data, true, false)
      | _ =>
        if hasCmcKey then
          match cmc with
          | .ok data => (.fetched "coinmarketcap" data, true, true)
          | _ => (.failed true, true, true)
        else (.failed true, true, false)
    else (.failed is429, false, false)

/-- Backoff duration in minutes after the increment that made the
consecutive-failure counter equal to `k`:
`Math.min(5 * Math.pow(2, consecutiveFailures - 1), 60)`. -/
def backoffMinutes (k : ℕ) : ℕ := min (5 * 2 ^ (k - 1)) 60

/-- Whether the cascade counts as a fetch success: some provider
returned data and the mapping is non-empty (an empty mapping raises
`Empty response from CoinGecko`). -/
def isSuccess : CascadeOutcome → Bool
  | .fetched _ data => !data.isEmpty
  | .failed _ => false

/-- Whether the outer catch classifies the failure as a rate limit
(`error.response && error.response.status === 429`); only the rethrown
CoinGecko 429 has that shape. -/
def isRateLimit : CascadeOutcome → Bool
  | .failed true => true
  | _ => false

/-- Whether the outcome takes the non-rate-limit failure branch of the
outer catch (generic error, or success with an empty mapping). -/
def nonRateLimitFailure (c : CascadeOutcome) : Bool :=
  !isSuccess c && !isRateLimit c

/-- Entry guards of `backgroundFetchPrices` (lines 495 to 517): return
early when already fetching, when still rate limited, or when inside the
minimum request interval; otherwise set the in-flight flag, count the
attempt and stamp the request time. -/
def startFetch (s : CacheState) (now : ℤ) : Option CacheState :=
  if s.isFetching then none
  else if now < s.rateLimitedUntil then none
  else if now - s.lastRequestTime < MIN_REQUEST_INTERVAL then none
  else some { s with
    isFetching := true
    fetchAttempts := s.fetchAttempts + 1
    lastRequestTime := now }

/-- Completion of a fetch campaign at time `fin` (lines 592 to 649).
On success: apply the margin, merge into the memory cache, stamp
`lastSuccessfulFetch`, reset `consecutiveFailures`. On a 429: increment
`consecutiveFailures` and set `rateLimitedUntil` by the exponential
backoff. On any other failure: change nothing else. The `finally` block
clears `isFetching` on every path. -/
def finishFetch (s : CacheState) (fin : ℤ) (c : CascadeOutcome) : CacheState :=
  match c with
  | .fetched _ data =>
    if data.isEmpty then { s with isFetching := false }
    else { s with
      memoryCache := mergeMaps s.memoryCache (applyMargin data)
      lastSuccessfulFetch := fin
      consecutiveFailures := 0
      isFetching := false }
  | .failed was429 =>
    if was429 then { s with
      consecutiveFailures := s.consecutiveFailures + 1
      rateLimitedUntil := fin + (backoffMinutes (s.consecutiveFailures + 1) : ℤ) * 60 * 1000
      isFetching := false }
    else { s with isFetching := false }

/-- Result of one invocation of the fetch routine: the new state,
whether any upstream call was issued, and whether a delayed retry was
scheduled (non-rate-limit failure with retry budget left). -/
structure FetchResult where
  state : CacheState
  upstreamCalled : Bool
  retryScheduled : Bool
deriving DecidableEq, Repr

/-- One invocation of `backgroundFetchPrices(retryCount)`: guards, then
the cascade, then completion; a blocked invocation changes nothing and
issues no upstream call. -/
def backgroundFetchPrices (s : CacheState) (now fin : ℤ)
    (c : CascadeOutcome) (retryCount : ℕ) : FetchResult :=
  match startFetch s now with
  | none => ⟨s, false, false⟩
  | some s1 =>
    ⟨finishFetch s1 fin c, true, nonRateLimitFailure c && decide (retryCount < MAX_RETRIES)⟩

/-- The periodic timer tick (`setInterval`), which calls the routine
with no retry count. -/
def timerTick (s : CacheState) (now fin : ℤ) (c : CascadeOutcome) : FetchResult :=
  backgroundFetchPrices s now fin c 0

/-- The read-path kick (line 797): `if (!isFetching) setTimeout(() => backgroundFetchPrices(), 100)`. -/
def readPathKick (s : CacheState) (now fin : ℤ) (c : CascadeOutcome) : FetchResult :=
  if s.isFetching then ⟨s, false, false⟩
  else backgroundFetchPrices s now fin c 0

/-- The manual trigger endpoint (lines 848 to 855): if a fetch is in
progress it only reports so (second component `true`); otherwise it
calls the routine. -/
def manualTrigger (s : CacheState) (now fin : ℤ) (c : CascadeOutcome) :
    FetchResult × Bool :=
  if s.isFetching then (⟨s, false, false⟩, true)
  else (backgroundFetchPrices s now fin c 0, false)

/-- One row written by `saveToDatabase` for one entry (lines 137 to
145): `usd_price` and `ngn_price` store `prices.usd || null` and
`prices.ngn || null`, and `original_ngn` stores
`prices.ngn ? prices.ngn - MARGIN_NGN : null`. -/
def saveRow (p : Prices) (timestamp : ℤ) : DbRow :=
  { usd_price := jsOr p.usd
    ngn_price := jsOr p.ngn
    original_ngn := if truthy p.ngn then p.ngn.map (fun q => q - MARGIN_NGN) else none
    last_updated := timestamp
    source := "coingecko" }

/-- The durable-tier upsert `saveToDatabase(tokenData)`: one
`INSERT OR REPLACE` row per entry, all with the same timestamp. -/
def saveToDatabase (data : PriceMap) (timestamp : ℤ) : List (String × DbRow) :=
  data.map (fun kv => (kv.1, saveRow kv.2 timestamp))

/-- How `loadFromDatabase` turns a row back into a price pair:
`{ usd: row.usd_price, ngn: row.ngn_price }`. -/
def loadRow (r : DbRow) : Prices := ⟨r.usd_price, r.ngn_price⟩

/-- The durable-tier read `loadFromDatabase(tokenIds)` (lines 155 to
183): with a non-empty id list, only matching rows; otherwise all
rows. -/
def loadFromDatabase (tokenIds : Option (List String))
    (rows : List (String × DbRow)) : PriceMap :=
  let selected : List (String × DbRow) :=
    match tokenIds with
    | some ids => if ids.isEmpty then rows else rows.filter (fun kv => ids.contains kv.1)
    | none => rows
  selected.map (fun kv => (kv.1, loadRow kv.2))

/-- Which serving path of the read endpoint produced the response; this
is the status string recorded by `logApiCall` in the `api_metrics`
table (no such tag appears in the HTTP response itself). -/
inductive ServeTag where
  | badRequest
  | memoryHit
  | databaseHit
  | emergencyDefaults
  | noData
deriving DecidableEq, Repr

/-- Outcome of one request to the read endpoint: HTTP status, JSON
body, the serving path as logged server-side, whether a non-blocking
scheduler kick was fired, the memory cache after any promotion, and
whether the handler issued an upstream provider call. -/
structure ReadOutcome where
  status : ℕ
  body : PriceMap
  tag : ServeTag
  kick : Bool
  newMemory : PriceMap
  upstreamCalled : Bool
deriving DecidableEq, Repr

/-- The hardcoded emergency default table of the read endpoint (lines
803 to 820): tether and usd-coin at 1 USD, bitcoin at 65000 USD,
ethereum at 3200 USD, each with the margin already included in the NGN
value at a 1520 rate. -/
def defaultFor (t : String) : Option Prices :=
  if t = "tether" ∨ t = "usd-coin" then some ⟨some 1, some (1520 + MARGIN_NGN)⟩
  else if t = "bitcoin" then some ⟨some 65000, some (65000 * 1520 + MARGIN_NGN)⟩
  else if t = "ethereum" then some ⟨some 3200, some (3200 * 1520 + MARGIN_NGN)⟩
  else none

/-- The `filteredResult` construction: for each requested token present
in the mapping, copy its entry. -/
def filterTokens (m : PriceMap) (tokens : List String) : PriceMap :=
  tokens.filterMap (fun t => (lookup m t).map (fun p => (t, p)))

/-- Whether the memory tier can serve the request: the cache is
non-empty, every requested token is present, and the filtered result is
non-empty (lines 747 to 759). -/
def memoryFullHit (memory : PriceMap) (tokens : List String) : Bool :=
  !memory.isEmpty && tokens.all (fun t => (lookup memory t).isSome)
    && !(filterTokens memory tokens).isEmpty

/-- Priority 3 and below of the read endpoint (lines 793 to 834): fire
a kick unless a fetch is in flight, then serve the emergency defaults
when any requested token has one, else respond 503. -/
def readDefaults (tokens : List String) (memoryNow : PriceMap)
    (fetching : Bool) : ReadOutcome :=
  if !(tokens.filterMap (fun t => (defaultFor t).map (fun p => (t, p)))).isEmpty then
    ⟨200, tokens.filterMap (fun t => (defaultFor t).map (fun p => (t, p))),
      .emergencyDefaults, !fetching, memoryNow, false⟩
  else
    ⟨503, [], .noData, !fetching, memoryNow, false⟩

/-- The read endpoint `GET /api/v3/simple/price` of the background-fetch
iteration (lines 733 to 845). `idsParam` is the parsed `ids` query
parameter (`none` when missing); `dbOk` is whether the database query
succeeds, `dbRows` its content. Priority 1 serves a full memory hit;
priority 2 loads the requested rows, promotes them into memory and
serves any non-empty subset; otherwise priority 3 takes over. No branch
performs an upstream provider call. -/
def readPrice (idsParam : Option (List String)) (memory : PriceMap)
    (dbOk : Bool) (dbRows : List (String × DbRow)) (fetching : Bool) : ReadOutcome :=
  match idsParam with
  | none => ⟨400, [], .badRequest, false, memory, false⟩
  | some tokens =>
    if memoryFullHit memory tokens then
      ⟨200, filterTokens memory tokens, .memoryHit, false, memory, false⟩
    else if dbOk && !(loadFromDatabase (some tokens) dbRows).isEmpty then
      if !(filterTokens (loadFromDatabase (some tokens) dbRows) tokens).isEmpty then
        ⟨200, filterTokens (loadFromDatabase (some tokens) dbRows) tokens, .databaseHit,
          false, mergeMaps memory (loadFromDatabase (some tokens) dbRows), false⟩
      else readDefaults tokens (mergeMaps memory (loadFromDatabase (some tokens) dbRows)) fetching
    else readDefaults tokens memory fetching

end Paycrypt.BackgroundFetch

namespace Paycrypt.LongCache

/-!
The long-cache iteration (src/server.js): one in-memory cache, and a
read endpoint that may await a CoinGecko fetch inside the request.
-/

open Paycrypt

/-- Fresh-cache window: 1 hour in milliseconds. -/
def CACHE_DURATION : ℤ := 60 * 60 * 1000

/-- Minimum interval between CoinGecko calls: 15 minutes. -/
def MIN_REQUEST_INTERVAL : ℤ := 15 * 60 * 1000

/-- Stale-cache tolerance: 24 hours. -/
def STALE_CACHE_DURATION : ℤ := 24 * 60 * 60 * 1000

/-- The module-level mutable variables of server.js. -/
structure SjState where
  priceCache : PriceMap
  lastUpdate : ℤ
  lastRequestTime : ℤ
  requestCount : ℕ
deriving DecidableEq, Repr

/-- Outcome of the CoinGecko call awaited inside the request handler,
when it is reached. -/
inductive SjFetch where
  | ok (data : PriceMap)
  | err
deriving DecidableEq, Repr

/-- Result of one request to the server.js read endpoint: HTTP status,
body, updated module state, and whether the handler awaited an upstream
CoinGecko call. -/
structure SjResult where
  status : ℕ
  body : PriceMap
  state : SjState
  upstreamCalled : Bool
deriving DecidableEq, Repr

/-- The emergency default table of server.js (lines 199 to 211): tether
and usd-coin at 1 USD, ethereum at 3200 USD, NGN at a 1650 rate plus
margin; no bitcoin entry in this iteration. -/
def defaultFor (t : String) : Option Prices :=
  if t = "tether" ∨ t = "usd-coin" then some ⟨some 1, some (1650 + MARGIN_NGN)⟩
  else if t = "ethereum" then some ⟨some 3200, some (3200 * 1650 + MARGIN_NGN)⟩
  else none

/-- The `filteredResult` construction of server.js. -/
def filterTokens (m : PriceMap) (tokens : List String) : PriceMap :=
  tokens.filterMap (fun t => (lookup m t).map (fun p => (t, p)))

/-- Priorities 3 to 5 of the server.js handler (lines 176 to 223): serve
any cached subset, the whole cache when no requested token matches, the
defaults when the cache is empty, else 503. The `called` flag records
whether the handler already awaited an upstream call. -/
def staleStage (st : SjState) (tokens : List String) (called : Bool) : SjResult :=
  if !st.priceCache.isEmpty then
    let filtered := filterTokens st.priceCache tokens
    if !filtered.isEmpty then ⟨200, filtered, st, called⟩
    else ⟨200, st.priceCache, st, called⟩
  else
    let defaultResult := tokens.filterMap (fun t => (defaultFor t).map (fun p => (t, p)))
    if !defaultResult.isEmpty then ⟨200, defaultResult, st, called⟩
    else ⟨503, [], st, called⟩

/-- Priority 2 of the server.js handler (lines 112 to 174): when the
minimum interval has elapsed or the cache is empty, stamp the request
time, count the request, and await a CoinGecko fetch; on a non-empty
success apply the margin, merge into the cache, stamp the update time
and return the fetched data; on an error rewind the request stamp by
half the interval and fall through. -/
def fetchStage (st : SjState) (now : ℤ) (tokens : List String)
    (upstream : SjFetch) : SjResult :=
  if now - st.lastRequestTime ≥ MIN_REQUEST_INTERVAL ∨ st.priceCache.isEmpty then
    let st1 : SjState := { st with lastRequestTime := now, requestCount := st.requestCount + 1 }
    match upstream with
    | .ok data =>
      if !data.isEmpty then
        let modified := applyMargin data
        let st2 : SjState := { st1 with
          priceCache := mergeMaps st1.priceCache modified
          lastUpdate := now }
        ⟨200, modified, st2, true⟩
      else staleStage st1 tokens true
    | .err =>
      let st2 : SjState := { st1 with lastRequestTime := st1.lastRequestTime - MIN_REQUEST_INTERVAL / 2 }
      staleStage st2 tokens true
  else staleStage st tokens false

/-- The read endpoint `GET /api/v3/simple/price` of server.js (lines 54
to 239). Priority 1 returns a full cache hit that is fresh, or stale
inside the request-interval limit, or any partial hit inside the limit;
otherwise the handler may fetch from CoinGecko synchronously before the
stale-serving stages. -/
def servePriceRequest (st : SjState) (now : ℤ)
    (idsParam : Option (List String)) (upstream : SjFetch) : SjResult :=
  match idsParam with
  | none => ⟨400, [], st, false⟩
  | some tokens =>
    let cacheAge := now - st.lastUpdate
    let tsr := now - st.lastRequestTime
    let filtered := filterTokens st.priceCache tokens
    let foundAll := tokens.all (fun t => (lookup st.priceCache t).isSome)
    if !st.priceCache.isEmpty ∧ foundAll ∧ !filtered.isEmpty ∧ cacheAge < CACHE_DURATION then
      ⟨200, filtered, st, false⟩
    else if !st.priceCache.isEmpty ∧ foundAll ∧ !filtered.isEmpty
        ∧ cacheAge < STALE_CACHE_DURATION ∧ tsr < MIN_REQUEST_INTERVAL then
      ⟨200, filtered, st, false⟩
    else if !st.priceCache.isEmpty ∧ !filtered.isEmpty ∧ tsr < MIN_REQUEST_INTERVAL then
      ⟨200, filtered, st, false⟩
    else fetchStage st now tokens upstream

end Paycrypt.LongCache

namespace Paycrypt

open BackgroundFetch

/-- C1: while a fetch campaign is in flight (`isFetching` true), every
further kick — direct routine call (timer), read-path kick, or manual
trigger — is a no-op that issues no upstream call; a campaign start is
the only transition setting the flag, and campaign completion clears it
on the success path and on every failure path alike. -/
theorem single_flight :
    (∀ (s : CacheState) (now fin : ℤ) (c : CascadeOutcome) (rc : ℕ),
        s.isFetching = true →
          backgroundFetchPrices s now fin c rc = ⟨s, false, false⟩
          ∧ timerTick s now fin c = ⟨s, false, false⟩
          ∧ readPathKick s now fin c = ⟨s, false, false⟩
          ∧ manualTrigger s now fin c = (⟨s, false, false⟩, true))
    ∧ (∀ (s : CacheState) (now : ℤ) (s1 : CacheState),
        startFetch s now = some s1 → s1.isFetching = true)
    ∧ (∀ (s : CacheState) (fin : ℤ) (c : CascadeOutcome),
        (finishFetch s fin c).isFetching = false) := by
  refine ⟨?_, ?_, ?_⟩
  · intro s now fin c rc h
    refine ⟨?_, ?_, ?_, ?_⟩
    · simp [backgroundFetchPrices, startFetch, h]
    · simp [timerTick, backgroundFetchPrices, startFetch, h]
    · simp [readPathKick, h]
    · simp [manualTrigger, h]
  · intro s now s1 h
    unfold startFetch at h
    by_cases h1 : s.isFetching
    · simp [h1] at h
    · by_cases h2 : now < s.rateLimitedUntil
      · simp [h1, h2] at h
      · by_cases h3 : now - s.lastRequestTime < MIN_REQUEST_INTERVAL
        · simp [h1, h2, h3] at h
        · simp [h1, h2, h3] at h
          rw [← h]
  · intro s fin c
    cases c with
    | fetched src data =>
      unfold finishFetch
      by_cases hd : data.isEmpty <;> simp [hd]
    | failed b =>
      unfold finishFetch
      cases b <;> simp

/-- C1 witness: with a concrete in-flight state every kick path is a
no-op, and a concrete completed campaign ends with the flag cleared. -/
theorem single_flight_witness :
    backgroundFetchPrices ⟨[], 0, true, 0, 0, 0, 0⟩ 5 6 (.failed true) 0
        = ⟨⟨[], 0, true, 0, 0, 0, 0⟩, false, false⟩
    ∧ manualTrigger ⟨[], 0, true, 0, 0, 0, 0⟩ 5 6 (.failed true)
        = (⟨⟨[], 0, true, 0, 0, 0, 0⟩, false, false⟩, true)
    ∧ (⟨[], 0, true, 1, 0, 0, 0⟩ : CacheState).isFetching = true
    ∧ (finishFetch ⟨[], 0, true, 1, 0, 0, 5⟩ 6 (.failed true)).isFetching = false := by
  refine ⟨(single_flight.1 ⟨[], 0, true, 0, 0, 0, 0⟩ 5 6 (.failed true) 0 rfl).1,
          (single_flight.1 ⟨[], 0, true, 0, 0, 0, 0⟩ 5 6 (.failed true) 0 rfl).2.2.2,
          single_flight.2.1 ⟨[], 0, false, 0, 0, 0, (-5000)⟩ 0 ⟨[], 0, true, 1, 0, 0, 0⟩ (by decide),
          single_flight.2.2 ⟨[], 0, true, 1, 0, 0, 5⟩ 6 (.failed true)⟩

/-- C2: a guard-passing campaign that ends rate limited increments the
consecutive-failure counter to its new value k and sets the backoff to
min(5 min times 2 to the k minus 1, 60 min); that formula is
non-decreasing in k, starts at the 5-minute base, reaches the 60-minute
ceiling from k equal 5 on; and a guard-passing successful campaign
resets the counter to zero. -/
theorem backoff_schedule :
    (∀ (s : CacheState) (now fin : ℤ) (rc : ℕ),
        s.isFetching = false →
        ¬ now < s.rateLimitedUntil →
        ¬ now - s.lastRequestTime < MIN_REQUEST_INTERVAL →
          (backgroundFetchPrices s now fin (.failed true) rc).state.consecutiveFailures
              = s.consecutiveFailures + 1
          ∧ (backgroundFetchPrices s now fin (.failed true) rc).state.rateLimitedUntil
              = fin + (backoffMinutes (s.consecutiveFailures + 1) : ℤ) * 60 * 1000)
    ∧ (∀ j k : ℕ, 1 ≤ j → j ≤ k → backoffMinutes j ≤ backoffMinutes k)
    ∧ backoffMinutes 1 = 5
    ∧ (∀ k : ℕ, 5 ≤ k → backoffMinutes k = 60)
    ∧ (∀ (s : CacheState) (now fin : ℤ) (c : CascadeOutcome) (rc : ℕ),
        s.isFetching = false →
        ¬ now < s.rateLimitedUntil →
        ¬ now - s.lastRequestTime < MIN_REQUEST_INTERVAL →
        isSuccess c = true →
          (backgroundFetchPrices s now fin c rc).state.consecutiveFailures = 0) := by
  refine ⟨?_, ?_, ?_, ?_, ?_⟩
  · intro s now fin rc h1 h2 h3
    simp [backgroundFetchPrices, startFetch, finishFetch, h1, h2, h3]
  · intro j k hj hjk
    unfold backoffMinutes
    have hpow : 2 ^ (j - 1) ≤ 2 ^ (k - 1) :=
      Nat.pow_le_pow_right (by norm_num) (by omega)
    exact min_le_min (Nat.mul_le_mul_left 5 hpow) le_rfl
  · decide
  · intro k hk
    unfold backoffMinutes
    have hpow : (16 : ℕ) ≤ 2 ^ (k - 1) := by
      calc (16 : ℕ) = 2 ^ 4 := by norm_num
      _ ≤ 2 ^ (k - 1) := Nat.pow_le_pow_right (by norm_num) (by omega)
    omega
  · intro s now fin c rc h1 h2 h3 hs
    cases c with
    | fetched src data =>
      simp [isSuccess] at hs
      simp [backgroundFetchPrices, startFetch, finishFetch, h1, h2, h3, hs]
    | failed b => simp [isSuccess] at hs

/-- C2 witness: concrete guard-passing rate-limited campaign from a
clean state yields counter 1 and a 5-minute backoff stamp; the formula
is monotone between 1 and 3, capped at 6, and a concrete success resets
the counter. -/
theorem backoff_schedule_witness :
    (backgroundFetchPrices ⟨[], 0, false, 0, 0, 0, (-5000)⟩ 0 7 (.failed true) 0).state.consecutiveFailures = 1
    ∧ (backgroundFetchPrices ⟨[], 0, false, 0, 0, 0, (-5000)⟩ 0 7 (.failed true) 0).state.rateLimitedUntil
        = 7 + (backoffMinutes 1 : ℤ) * 60 * 1000
    ∧ backoffMinutes 1 ≤ backoffMinutes 3
    ∧ backoffMinutes 6 = 60
    ∧ (backgroundFetchPrices ⟨[], 0, false, 0, 4, 0, (-5000)⟩ 0 7
        (.fetched "coingecko" [("tether", ⟨some 1, some 1500⟩)]) 0).state.consecutiveFailures = 0 := by
  refine ⟨(backoff_schedule.1 ⟨[], 0, false, 0, 0, 0, (-5000)⟩ 0 7 0 rfl (by decide) (by decide)).1,
          (backoff_schedule.1 ⟨[], 0, false, 0, 0, 0, (-5000)⟩ 0 7 0 rfl (by decide) (by decide)).2,
          backoff_schedule.2.1 1 3 (by decide) (by decide),
          backoff_schedule.2.2.2.1 6 (by decide),
          backoff_schedule.2.2.2.2 ⟨[], 0, false, 0, 4, 0, (-5000)⟩ 0 7
            (.fetched "coingecko" [("tether", ⟨some 1, some 1500⟩)]) 0 rfl
            (by decide) (by decide) (by decide)⟩

/-- C3: an invocation whose campaign does not succeed — whether blocked
by a guard, rate limited, failed otherwise, or returning an empty
mapping — leaves the in-memory price mapping and the last-success stamp
exactly as they were. -/
theorem failure_preserves_cache :
    ∀ (s : CacheState) (now fin : ℤ) (c : CascadeOutcome) (rc : ℕ),
      isSuccess c = false →
        (backgroundFetchPrices s now fin c rc).state.memoryCache = s.memoryCache
        ∧ (backgroundFetchPrices s now fin c rc).state.lastSuccessfulFetch
            = s.lastSuccessfulFetch := by
  intro s now fin c rc hc
  unfold backgroundFetchPrices
  cases hstart : startFetch s now with
  | none => exact ⟨rfl, rfl⟩
  | some s1 =>
    have hmem : s1.memoryCache = s.memoryCache ∧ s1.lastSuccessfulFetch = s.lastSuccessfulFetch := by
      unfold startFetch at hstart
      by_cases h1 : s.isFetching
      · simp [h1] at hstart
      · by_cases h2 : now < s.rateLimitedUntil
        · simp [h1, h2] at hstart
        · by_cases h3 : now - s.lastRequestTime < MIN_REQUEST_INTERVAL
          · simp [h1, h2, h3] at hstart
          · simp [h1, h2, h3] at hstart
            rw [← hstart]
            exact ⟨rfl, rfl⟩
    cases c with
    | fetched src data =>
      simp [isSuccess] at hc
      simp [finishFetch, hc, hmem.1, hmem.2]
    | failed b =>
      cases b <;> simp [finishFetch, hmem.1, hmem.2]

/-- C3 witness: a concrete rate-limited campaign from a populated cache
leaves the mapping and last-success stamp unchanged. -/
theorem failure_preserves_cache_witness :
    (backgroundFetchPrices ⟨[("tether", ⟨some 1, some 1540⟩)], 11, false, 3, 0, 0, (-5000)⟩
        0 7 (.failed true) 0).state.memoryCache = [("tether", ⟨some 1, some 1540⟩)]
    ∧ (backgroundFetchPrices ⟨[("tether", ⟨some 1, some 1540⟩)], 11, false, 3, 0, 0, (-5000)⟩
        0 7 (.failed true) 0).state.lastSuccessfulFetch = 11 :=
  failure_preserves_cache ⟨[("tether", ⟨some 1, some 1540⟩)], 11, false, 3, 0, 0, (-5000)⟩
    0 7 (.failed true) 0 (by decide)

/-- C4: whenever the backoff guard or the throttle guard holds at entry
time, the invocation — through the routine itself, the timer, the
read-path kick or the manual trigger — changes nothing and issues no
upstream call. -/
theorem guards_block_upstream :
    ∀ (s : CacheState) (now fin : ℤ) (c : CascadeOutcome) (rc : ℕ),
      (now < s.rateLimitedUntil ∨ now - s.lastRequestTime < MIN_REQUEST_INTERVAL) →
        backgroundFetchPrices s now fin c rc = ⟨s, false, false⟩
        ∧ timerTick s now fin c = ⟨s, false, false⟩
        ∧ readPathKick s now fin c = ⟨s, false, false⟩
        ∧ (manualTrigger s now fin c).1 = ⟨s, false, false⟩ := by
  intro s now fin c rc hguard
  have hnone : startFetch s now = none := by
    unfold startFetch
    by_cases h1 : s.isFetching
    · simp [h1]
    · rcases hguard with h2 | h3
      · simp [h1, h2]
      · by_cases h2 : now < s.rateLimitedUntil
        · simp [h1, h2]
        · simp [h1, h2, h3]
  have hbg : backgroundFetchPrices s now fin c rc = ⟨s, false, false⟩ := by
    simp [backgroundFetchPrices, hnone]
  have hbg0 : backgroundFetchPrices s now fin c 0 = ⟨s, false, false⟩ := by
    simp [backgroundFetchPrices, hnone]
  refine ⟨hbg, hbg0, ?_, ?_⟩
  · unfold readPathKick
    by_cases h1 : s.isFetching <;> simp [h1, hbg0]
  · unfold manualTrigger
    by_cases h1 : s.isFetching <;> simp [h1, hbg0]

/-- C4 witness: with a concrete state still inside its backoff window,
every invocation path is a no-op with no upstream call. -/
theorem guards_block_upstream_witness :
    backgroundFetchPrices ⟨[], 0, false, 0, 2, 100, (-5000)⟩ 50 60 (.fetched "coingecko" [("tether", ⟨some 1, some 1500⟩)]) 0
        = ⟨⟨[], 0, false, 0, 2, 100, (-5000)⟩, false, false⟩
    ∧ readPathKick ⟨[], 0, false, 0, 2, 100, (-5000)⟩ 50 60 (.fetched "coingecko" [("tether", ⟨some 1, some 1500⟩)])
        = ⟨⟨[], 0, false, 0, 2, 100, (-5000)⟩, false, false⟩ := by
  refine ⟨(guards_block_upstream ⟨[], 0, false, 0, 2, 100, (-5000)⟩ 50 60
            (.fetched "coingecko" [("tether", ⟨some 1, some 1500⟩)]) 0 (Or.inl (by decide))).1,
          (guards_block_upstream ⟨[], 0, false, 0, 2, 100, (-5000)⟩ 50 60
            (.fetched "coingecko" [("tether", ⟨some 1, some 1500⟩)]) 0 (Or.inl (by decide))).2.2.1⟩

/-- C5: the cascade tries Alchemy only when CoinGecko failed with
exactly an HTTP 429; a non-rate-limit CoinGecko failure propagates
immediately with neither fallback tried; and with both fallback keys
configured, an Alchemy failure of any kind cascades on to
CoinMarketCap. -/
theorem cascade_policy :
    ∀ (hasAl hasCmc : Bool) (cg al cmc : ProviderOutcome),
      ((fetchCascade hasAl hasCmc cg al cmc).2.1 = true → cg = .rl429)
      ∧ (cg = .errOther →
          fetchCascade hasAl hasCmc cg al cmc = (.failed false, false, false))
      ∧ (hasAl = true → hasCmc = true → cg = .rl429 → al.isOk = false →
          (fetchCascade hasAl hasCmc cg al cmc).2.2 = true) := by
  intro hasAl hasCmc cg al cmc
  cases cg with
  | ok data => simp [fetchCascade]
  | rl429 =>
    cases hasAl <;> cases hasCmc <;>
      cases al <;> cases cmc <;>
        simp [fetchCascade, ProviderOutcome.isOk]
  | errOther =>
    cases hasAl <;> cases hasCmc <;>
      cases al <;> cases cmc <;>
        simp [fetchCascade, ProviderOutcome.isOk]

/-- C5 witness: with both keys configured, a CoinGecko 429 followed by
an Alchemy failure reaches CoinMarketCap; with an errored CoinGecko the
cascade propagates at once. -/
theorem cascade_policy_witness :
    (fetchCascade true true .rl429 .errOther .errOther).2.2 = true
    ∧ fetchCascade true true .errOther .rl429 (.ok []) = (.failed false, false, false)
    ∧ ProviderOutcome.rl429 = ProviderOutcome.rl429 := by
  refine ⟨(cascade_policy true true .rl429 .errOther .errOther).2.2 rfl rfl rfl (by decide),
          (cascade_policy true true .errOther .rl429 (.ok [])).2.1 rfl,
          (cascade_policy true true .rl429 (.ok []) .errOther).1 (by decide)⟩

/-- Helper: the margin applier commutes with lookup over the mapping. -/
theorem lookup_applyMargin (data : PriceMap) (t : String) :
    lookup (applyMargin data) t = (lookup data t).map applyMarginEntry := by
  induction data with
  | nil => rfl
  | cons kv rest ih =>
    unfold applyMargin lookup at *
    simp only [List.map, List.find?]
    cases h : (kv.1 == t) with
    | true => simp
    | false => simpa using ih

/-- C6 counterexample: an entry whose NGN price is the non-null value 0
is not given the margin — the JS conditional tests truthiness, and 0 is
falsy — refuting the claim that every non-null NGN price has the margin
added. -/
theorem margin_nonnull_claim_false :
    (⟨some 1, some 0⟩ : Prices).ngn ≠ none
    ∧ applyMarginEntry ⟨some 1, some 0⟩ = ⟨some 1, some 0⟩
    ∧ applyMarginEntry ⟨some 1, some 0⟩ ≠ ⟨some 1, some (0 + MARGIN_NGN)⟩ := by
  refine ⟨by simp, by simp [applyMarginEntry, truthy], ?_⟩
  simp only [applyMarginEntry, truthy]
  norm_num [MARGIN_NGN, Prices.mk.injEq]

/-- C6 amended: the margin applier is a pure function of the mapping;
for every entry whose NGN price is non-null AND non-zero it adds
exactly the configured margin, the USD price always passes through
unchanged, and a null or zero NGN price passes through unchanged. -/
theorem margin_applier_truthy :
    ∀ (p : Prices),
      (applyMarginEntry p).usd = p.usd
      ∧ (∀ q : ℚ, p.ngn = some q → q ≠ 0 →
          (applyMarginEntry p).ngn = some (q + MARGIN_NGN))
      ∧ (p.ngn = none → (applyMarginEntry p).ngn = none)
      ∧ (p.ngn = some 0 → (applyMarginEntry p).ngn = some 0)
      ∧ (∀ (data : PriceMap) (t : String),
          lookup (applyMargin data) t = (lookup data t).map applyMarginEntry) := by
  intro p
  refine ⟨rfl, ?_, ?_, ?_, lookup_applyMargin⟩
  · intro q hq hq0
    simp [applyMarginEntry, truthy, hq, hq0]
  · intro hq
    simp [applyMarginEntry, truthy, hq]
  · intro hq
    simp [applyMarginEntry, truthy, hq]

/-- C6 amended witness: a concrete non-zero NGN price receives exactly
the margin while the USD price is untouched. -/
theorem margin_applier_truthy_witness :
    (applyMarginEntry ⟨some 2, some 100⟩).usd = some 2
    ∧ (applyMarginEntry ⟨some 2, some 100⟩).ngn = some (100 + MARGIN_NGN)
    ∧ (applyMarginEntry ⟨some 2, none⟩).ngn = none :=
  ⟨(margin_applier_truthy ⟨some 2, some 100⟩).1,
   (margin_applier_truthy ⟨some 2, some 100⟩).2.1 100 rfl (by decide),
   (margin_applier_truthy ⟨some 2, none⟩).2.2.1 rfl⟩

/-- C8: every row the durable-tier upsert writes satisfies the margin
invariant — a non-null stored ngn price has a non-null stored pre-margin
price exactly the margin below it. -/
theorem saved_row_margin_invariant :
    ∀ (data : PriceMap) (ts : ℤ) (k : String) (row : DbRow),
      (k, row) ∈ BackgroundFetch.saveToDatabase data ts →
      ∀ q : ℚ, row.ngn_price = some q →
        ∃ r : ℚ, row.original_ngn = some r ∧ q = r + MARGIN_NGN := by
  intro data ts k row hmem q hq
  unfold BackgroundFetch.saveToDatabase at hmem
  rw [List.mem_map] at hmem
  obtain ⟨kv, _, heq⟩ := hmem
  injection heq with h1 h2
  rw [← h2] at hq ⊢
  by_cases ht : truthy kv.2.ngn
  · cases hng : kv.2.ngn with
    | none => rw [hng] at ht; simp [truthy] at ht
    | some q0 =>
      have ht0 : truthy (some q0) = true := by rw [← hng]; exact ht
      refine ⟨q0 - MARGIN_NGN, ?_, ?_⟩
      · simp [BackgroundFetch.saveRow, hng, ht0]
      · have : some q0 = some q := by
          simpa [BackgroundFetch.saveRow, jsOr, hng, ht0] using hq
        rw [Option.some.injEq] at this
        rw [← this]
        ring
  · exfalso
    have : (BackgroundFetch.saveRow kv.2 ts).ngn_price = none := by
      simp [BackgroundFetch.saveRow, jsOr, ht]
    rw [this] at hq
    exact Option.noConfusion hq

/-- C8 witness: the concrete row saved for an NGN price of 1540 stores
pre-margin 1520 and satisfies 1540 equals 1520 plus the margin. -/
theorem saved_row_margin_invariant_witness :
    ∃ r : ℚ, (BackgroundFetch.saveRow ⟨none, some 1540⟩ 0).original_ngn = some r
      ∧ (1540 : ℚ) = r + MARGIN_NGN :=
  saved_row_margin_invariant [("tether", ⟨none, some 1540⟩)] 0 "tether"
    (BackgroundFetch.saveRow ⟨none, some 1540⟩ 0)
    (by simp [BackgroundFetch.saveToDatabase]) 1540
    (by norm_num [BackgroundFetch.saveRow, jsOr, truthy])

/-- C10: the durable-tier upsert stores a USD or NGN price of exactly 0
as null (and then a null pre-margin price), so a record whose real
price was 0 reloads identically to a record that never had a price. -/
theorem zero_price_stored_null :
    ∀ (p : Prices) (ts : ℤ),
      (p.usd = some 0 → (BackgroundFetch.saveRow p ts).usd_price = none)
      ∧ (p.ngn = some 0 →
          (BackgroundFetch.saveRow p ts).ngn_price = none
          ∧ (BackgroundFetch.saveRow p ts).original_ngn = none)
      ∧ (p.usd = some 0 → p.ngn = some 0 →
          BackgroundFetch.loadRow (BackgroundFetch.saveRow p ts)
            = BackgroundFetch.loadRow (BackgroundFetch.saveRow ⟨none, none⟩ ts)) := by
  intro p ts
  refine ⟨?_, ?_, ?_⟩
  · intro hu
    simp [BackgroundFetch.saveRow, jsOr, truthy, hu]
  · intro hn
    simp [BackgroundFetch.saveRow, jsOr, truthy, hn]
  · intro hu hn
    simp [BackgroundFetch.loadRow, BackgroundFetch.saveRow, jsOr, truthy, hu, hn]

/-- C10 witness: a record priced 0 in both currencies reloads exactly
like the empty record. -/
theorem zero_price_stored_null_witness :
    (BackgroundFetch.saveRow ⟨some 0, some 0⟩ 3).usd_price = none
    ∧ (BackgroundFetch.saveRow ⟨some 0, some 0⟩ 3).ngn_price = none
    ∧ BackgroundFetch.loadRow (BackgroundFetch.saveRow ⟨some 0, some 0⟩ 3)
        = BackgroundFetch.loadRow (BackgroundFetch.saveRow ⟨none, none⟩ 3) :=
  ⟨(zero_price_stored_null ⟨some 0, some 0⟩ 3).1 rfl,
   ((zero_price_stored_null ⟨some 0, some 0⟩ 3).2.1 rfl).1,
   (zero_price_stored_null ⟨some 0, some 0⟩ 3).2.2 rfl rfl⟩

/-- Helper: the two possible outcomes of the defaults stage. -/
theorem readDefaults_branches (tokens : List String) (m : PriceMap) (fetching : Bool) :
    ((tokens.filterMap (fun t => (defaultFor t).map (fun p => (t, p)))).isEmpty = false
      ∧ readDefaults tokens m fetching
          = ⟨200, tokens.filterMap (fun t => (defaultFor t).map (fun p => (t, p))),
             .emergencyDefaults, !fetching, m, false⟩)
    ∨ ((tokens.filterMap (fun t => (defaultFor t).map (fun p => (t, p)))).isEmpty = true
      ∧ readDefaults tokens m fetching = ⟨503, [], .noData, !fetching, m, false⟩) := by
  by_cases hd : (!(tokens.filterMap (fun t => (defaultFor t).map (fun p => (t, p)))).isEmpty) = true
  · left
    refine ⟨by simpa using hd, ?_⟩
    unfold readDefaults
    rw [if_pos hd]
  · right
    refine ⟨by simpa using hd, ?_⟩
    unfold readDefaults
    rw [if_neg hd]

/-- Helper: case characterization of the read endpoint on a present
ids parameter — full memory hit, database hit, or the defaults stage
entered with both cache tiers yielding nothing servable. -/
theorem readPrice_branches (tokens : List String) (memory : PriceMap) (dbOk : Bool)
    (dbRows : List (String × DbRow)) (fetching : Bool) :
    (memoryFullHit memory tokens = true
      ∧ readPrice (some tokens) memory dbOk dbRows fetching
          = ⟨200, filterTokens memory tokens, .memoryHit, false, memory, false⟩)
    ∨ (memoryFullHit memory tokens = false
      ∧ (dbOk && !(loadFromDatabase (some tokens) dbRows).isEmpty) = true
      ∧ (filterTokens (loadFromDatabase (some tokens) dbRows) tokens).isEmpty = false
      ∧ readPrice (some tokens) memory dbOk dbRows fetching
          = ⟨200, filterTokens (loadFromDatabase (some tokens) dbRows) tokens, .databaseHit,
             false, mergeMaps memory (loadFromDatabase (some tokens) dbRows), false⟩)
    ∨ (memoryFullHit memory tokens = false
      ∧ ((dbOk && !(loadFromDatabase (some tokens) dbRows).isEmpty) = false
         ∨ (filterTokens (loadFromDatabase (some tokens) dbRows) tokens).isEmpty = true)
      ∧ (readPrice (some tokens) memory dbOk dbRows fetching
           = readDefaults tokens (mergeMaps memory (loadFromDatabase (some tokens) dbRows)) fetching
         ∨ readPrice (some tokens) memory dbOk dbRows fetching
           = readDefaults tokens memory fetching)) := by
  by_cases hm : memoryFullHit memory tokens = true
  · left
    refine ⟨hm, ?_⟩
    simp only [readPrice]
    rw [if_pos hm]
  · have hm0 : memoryFullHit memory tokens = false := by simpa using hm
    by_cases hdb : (dbOk && !(loadFromDatabase (some tokens) dbRows).isEmpty) = true
    · by_cases hf : (!(filterTokens (loadFromDatabase (some tokens) dbRows) tokens).isEmpty) = true
      · right; left
        refine ⟨hm0, hdb, by simpa using hf, ?_⟩
        simp only [readPrice]
        rw [if_neg hm, if_pos hdb, if_pos hf]
      · right; right
        refine ⟨hm0, Or.inr (by simpa using hf), Or.inl ?_⟩
        simp only [readPrice]
        rw [if_neg hm, if_pos hdb, if_neg hf]
    · right; right
      refine ⟨hm0, Or.inl (by simpa using hdb), Or.inr ?_⟩
      simp only [readPrice]
      rw [if_neg hm, if_neg hdb]

/-- C7 counterexample: the long-cache iteration's read endpoint, on a
concrete request with an empty cache, awaits a synchronous CoinGecko
call inside the request and serves the freshly fetched margined data,
refuting the claim that the price read endpoint never issues a
synchronous upstream request. -/
theorem read_endpoint_sync_upstream :
    (LongCache.servePriceRequest ⟨[], 0, 0, 0⟩ 0 (some ["bitcoin"])
        (.ok [("bitcoin", ⟨some 100, some 1000⟩)])).upstreamCalled = true
    ∧ (LongCache.servePriceRequest ⟨[], 0, 0, 0⟩ 0 (some ["bitcoin"])
        (.ok [("bitcoin", ⟨some 100, some 1000⟩)])).body
        = [("bitcoin", ⟨some 100, some (1000 + MARGIN_NGN)⟩)]
    ∧ (LongCache.servePriceRequest ⟨[], 0, 0, 0⟩ 0 (some ["bitcoin"])
        (.ok [("bitcoin", ⟨some 100, some 1000⟩)])).state.requestCount = 1 :=
  ⟨rfl, rfl, rfl⟩

/-- C7 amended: the background-fetch iteration's read endpoint serves
strictly by tier priority — memory only on a full hit, else the durable
tier promoted into memory, else the defaults stage — and no branch of
that handler issues an upstream call; the kick is fired only at the
defaults stage and only while no fetch is in flight. -/
theorem read_path_tier_priority :
    ∀ (tokens : List String) (memory : PriceMap) (dbOk : Bool)
      (dbRows : List (String × DbRow)) (fetching : Bool) (r : ReadOutcome),
      r = readPrice (some tokens) memory dbOk dbRows fetching →
        r.upstreamCalled = false
        ∧ (r.tag = .memoryHit →
            memoryFullHit memory tokens = true ∧ r.body = filterTokens memory tokens)
        ∧ (r.tag = .databaseHit →
            memoryFullHit memory tokens = false
            ∧ (dbOk && !(loadFromDatabase (some tokens) dbRows).isEmpty) = true
            ∧ r.newMemory = mergeMaps memory (loadFromDatabase (some tokens) dbRows)
            ∧ r.body = filterTokens (loadFromDatabase (some tokens) dbRows) tokens)
        ∧ (r.tag = .emergencyDefaults ∨ r.tag = .noData →
            memoryFullHit memory tokens = false
            ∧ ((dbOk && !(loadFromDatabase (some tokens) dbRows).isEmpty) = false
               ∨ (filterTokens (loadFromDatabase (some tokens) dbRows) tokens).isEmpty = true))
        ∧ (r.kick = true →
            fetching = false ∧ (r.tag = .emergencyDefaults ∨ r.tag = .noData))
        ∧ (r.tag = .noData → r.status = 503) := by
  intro tokens memory dbOk dbRows fetching r hr
  rcases readPrice_branches tokens memory dbOk dbRows fetching with
    ⟨hm, hres⟩ | ⟨hm, hdb, hf, hres⟩ | ⟨hm, hdb, hres⟩
  · rw [hres] at hr; subst hr
    refine ⟨rfl, fun _ => ⟨hm, rfl⟩, fun h => absurd h (by simp),
            fun h => ?_, fun h => absurd h (by simp), fun h => absurd h (by simp)⟩
    rcases h with h | h <;> exact absurd h (by simp)
  · rw [hres] at hr; subst hr
    refine ⟨rfl, fun h => absurd h (by simp), fun _ => ⟨hm, hdb, rfl, rfl⟩,
            fun h => ?_, fun h => absurd h (by simp), fun h => absurd h (by simp)⟩
    rcases h with h | h <;> exact absurd h (by simp)
  · have key : ∀ m2 : PriceMap, r = readDefaults tokens m2 fetching →
        r.upstreamCalled = false
        ∧ (r.tag = .memoryHit →
            memoryFullHit memory tokens = true ∧ r.body = filterTokens memory tokens)
        ∧ (r.tag = .databaseHit →
            memoryFullHit memory tokens = false
            ∧ (dbOk && !(loadFromDatabase (some tokens) dbRows).isEmpty) = true
            ∧ r.newMemory = mergeMaps memory (loadFromDatabase (some tokens) dbRows)
            ∧ r.body = filterTokens (loadFromDatabase (some tokens) dbRows) tokens)
        ∧ (r.tag = .emergencyDefaults ∨ r.tag = .noData →
            memoryFullHit memory tokens = false
            ∧ ((dbOk && !(loadFromDatabase (some tokens) dbRows).isEmpty) = false
               ∨ (filterTokens (loadFromDatabase (some tokens) dbRows) tokens).isEmpty = true))
        ∧ (r.kick = true →
            fetching = false ∧ (r.tag = .emergencyDefaults ∨ r.tag = .noData))
        ∧ (r.tag = .noData → r.status = 503) := by
      intro m2 hr2
      rcases readDefaults_branches tokens m2 fetching with ⟨_, hd⟩ | ⟨_, hd⟩
      · rw [hd] at hr2; subst hr2
        refine ⟨rfl, fun h => absurd h (by simp), fun h => absurd h (by simp),
                fun _ => ⟨hm, hdb⟩, fun h => ⟨by simpa using h, Or.inl rfl⟩,
                fun h => absurd h (by simp)⟩
      · rw [hd] at hr2; subst hr2
        exact ⟨rfl, fun h => absurd h (by simp), fun h => absurd h (by simp),
                fun _ => ⟨hm, hdb⟩, fun h => ⟨by simpa using h, Or.inr rfl⟩,
                fun _ => rfl⟩
    rcases hres with hres | hres
    · exact key (mergeMaps memory (loadFromDatabase (some tokens) dbRows)) (hr.trans hres)
    · exact key memory (hr.trans hres)

/-- C7 amended witness: a concrete full memory hit is served from
memory with no upstream call, and a concrete empty-cache request lands
on the defaults stage with both tiers having yielded nothing. -/
theorem read_path_tier_priority_witness :
    (readPrice (some ["tether"]) [("tether", ⟨some 1, some 1540⟩)] true [] false).upstreamCalled = false
    ∧ memoryFullHit [("tether", ⟨some 1, some 1540⟩)] ["tether"] = true
    ∧ (readPrice (some ["tether"]) [("tether", ⟨some 1, some 1540⟩)] true [] false).body
        = filterTokens [("tether", ⟨some 1, some 1540⟩)] ["tether"]
    ∧ memoryFullHit [] ["tether"] = false := by
  refine ⟨(read_path_tier_priority ["tether"] [("tether", ⟨some 1, some 1540⟩)] true [] false _ rfl).1,
          ?_, ?_, ?_⟩
  · exact ((read_path_tier_priority ["tether"] [("tether", ⟨some 1, some 1540⟩)] true [] false _ rfl).2.1 rfl).1
  · exact ((read_path_tier_priority ["tether"] [("tether", ⟨some 1, some 1540⟩)] true [] false _ rfl).2.1 rfl).2
  · exact ((read_path_tier_priority ["tether"] [] true [] false _ rfl).2.2.2.1 (Or.inl rfl)).1

/-- Helper: every entry of the emergency default response body comes
from the default table. -/
theorem defaults_body_all (tokens : List String) :
    (tokens.filterMap (fun t => (defaultFor t).map (fun p => (t, p)))).all
      (fun kv => (defaultFor kv.1).isSome) = true := by
  induction tokens with
  | nil => rfl
  | cons t rest ih =>
    cases hd : defaultFor t with
    | none => simpa [List.filterMap_cons, hd] using ih
    | some p => simp [List.filterMap_cons, hd, ih]

/-- C9 counterexample: a response assembled from the emergency defaults
has exactly the same HTTP status and body as a response served from
real in-memory data — the serving path differs only in the server-side
metrics tag — refuting the claim that a default-built response is
clearly distinguishable in the response body or metadata. -/
theorem defaults_response_indistinguishable :
    (readPrice (some ["tether"]) [] true [] false).status
        = (readPrice (some ["tether"]) [("tether", ⟨some 1, some (1520 + MARGIN_NGN)⟩)] true [] false).status
    ∧ (readPrice (some ["tether"]) [] true [] false).body
        = (readPrice (some ["tether"]) [("tether", ⟨some 1, some (1520 + MARGIN_NGN)⟩)] true [] false).body
    ∧ (readPrice (some ["tether"]) [] true [] false).tag = .emergencyDefaults
    ∧ (readPrice (some ["tether"]) [("tether", ⟨some 1, some (1520 + MARGIN_NGN)⟩)] true [] false).tag
        = .memoryHit :=
  ⟨rfl, rfl, rfl, rfl⟩

/-- C9 amended: the emergency defaults are consulted only when neither
the memory tier (full hit) nor the durable tier produces a servable
result, the table covers only the four fixed ids tether, usd-coin,
bitcoin and ethereum, and a default-built response is marked only by
the server-side api-metrics tag, every body entry coming from the
table. -/
theorem defaults_policy :
    ∀ (tokens : List String) (memory : PriceMap) (dbOk : Bool)
      (dbRows : List (String × DbRow)) (fetching : Bool) (r : ReadOutcome),
      r = readPrice (some tokens) memory dbOk dbRows fetching →
        (r.tag = .emergencyDefaults →
          memoryFullHit memory tokens = false
          ∧ ((dbOk && !(loadFromDatabase (some tokens) dbRows).isEmpty) = false
             ∨ (filterTokens (loadFromDatabase (some tokens) dbRows) tokens).isEmpty = true)
          ∧ r.body.all (fun kv => (defaultFor kv.1).isSome) = true)
        ∧ (∀ (t : String) (p : Prices), defaultFor t = some p →
            t = "tether" ∨ t = "usd-coin" ∨ t = "bitcoin" ∨ t = "ethereum") := by
  intro tokens memory dbOk dbRows fetching r hr
  constructor
  · intro htag
    rcases readPrice_branches tokens memory dbOk dbRows fetching with
      ⟨hm, hres⟩ | ⟨hm, hdb, hf, hres⟩ | ⟨hm, hdb, hres⟩
    · rw [hres] at hr; subst hr; exact absurd htag (by simp)
    · rw [hres] at hr; subst hr; exact absurd htag (by simp)
    · have key : ∀ m2 : PriceMap, r = readDefaults tokens m2 fetching →
          r.body.all (fun kv => (defaultFor kv.1).isSome) = true := by
        intro m2 hr2
        rcases readDefaults_branches tokens m2 fetching with ⟨_, hd⟩ | ⟨_, hd⟩
        · rw [hd] at hr2; subst hr2
          exact defaults_body_all tokens
        · rw [hd] at hr2; subst hr2
          rfl
      rcases hres with hres | hres
      · exact ⟨hm, hdb, key _ (hr.trans hres)⟩
      · exact ⟨hm, hdb, key _ (hr.trans hres)⟩
  · intro t p ht
    unfold defaultFor at ht
    by_cases h1 : t = "tether" ∨ t = "usd-coin"
    · rcases h1 with h1 | h1
      · exact Or.inl h1
      · exact Or.inr (Or.inl h1)
    · rw [if_neg h1] at ht
      by_cases h2 : t = "bitcoin"
      · exact Or.inr (Or.inr (Or.inl h2))
      · rw [if_neg h2] at ht
        by_cases h3 : t = "ethereum"
        · exact Or.inr (Or.inr (Or.inr h3))
        · rw [if_neg h3] at ht
          exact Option.noConfusion ht

/-- C9 amended witness: a concrete defaults-served request had nothing
servable in either tier and a body drawn from the default table. -/
theorem defaults_policy_witness :
    memoryFullHit [] ["bitcoin"] = false
    ∧ (readPrice (some ["bitcoin"]) [] true [] false).body.all
        (fun kv => (defaultFor kv.1).isSome) = true
    ∧ ("bitcoin" = "tether" ∨ "bitcoin" = "usd-coin" ∨ "bitcoin" = "bitcoin"
        ∨ "bitcoin" = "ethereum") := by
  refine ⟨((defaults_policy ["bitcoin"] [] true [] false _ rfl).1 rfl).1,
          ((defaults_policy ["bitcoin"] [] true [] false _ rfl).1 rfl).2.2,
          (defaults_policy ["bitcoin"] [] true [] false _ rfl).2 "bitcoin"
            ⟨some 65000, some (65000 * 1520 + MARGIN_NGN)⟩ rfl⟩

end Paycrypt
